import Mathlib

/-!
Verification of the rank-order lifecycle and balance-ledger subsystem of
`discord_rank_shop_bot.py`.  The in-memory `data` dict is modelled as a
`Ledger` structure; every mutating handler is modelled as a function that
returns the new ledger together with a `flushed` flag recording whether
`save_data()` was called on that control path.  External collaborators
(Discord transport, the TrueWallet verification HTTP call, the `json`
module's textual encoding) are modelled as parameters or structural
encodings, exactly at the boundary where the source delegates to them.
-/

set_option autoImplicit false

namespace RankShop

/-- Product record, as appended by the `เพิ่มสินค้ายศ` slash command:
`{"emoji": emoji, "name": name, "rank": rank, "price": price, "image": ""}`. -/
structure Product where
  emoji : String
  name : String
  rank : String
  price : Int
  image : String
  deriving Repr, DecidableEq

/-- Order record, as built in `OrderModal.on_submit`. -/
structure Order where
  order_id : Int
  user_id : String
  rank_name : String
  color : String
  price : Int
  status : String
  deriving Repr, DecidableEq

/-- Topup audit record, as appended in `TopupModal.on_submit`:
`{"user_id": uid, "amount": amount, "link": link}`. -/
structure TopupRecord where
  user_id : String
  amount : Int
  link : String
  deriving Repr, DecidableEq

/-- The in-memory `data` dict: `{"products": [], "orders": [], "users": {},
"topup_logs": []}`.  The `users` dict maps a user id to `{"balance": n}`;
we model it as an association list in insertion order (Python dicts
preserve insertion order and `setdefault` appends at the end). -/
structure Ledger where
  products : List Product
  orders : List Order
  users : List (String × Int)
  topup_logs : List TopupRecord
  deriving Repr, DecidableEq

/-- Fresh structure returned by `load_data` when the file is absent or corrupt. -/
def emptyLedger : Ledger :=
  { products := [], orders := [], users := [], topup_logs := [] }

/-- Python `data["users"].get(uid, {}).get("balance", 0)` (the `BalanceButton`
read path and the balance read in `OrderModal.on_submit`). -/
def getBalance (L : Ledger) (uid : String) : Int :=
  (List.lookup uid L.users).getD 0

/-- Python `data["users"].setdefault(uid, {"balance": 0})`: keeps the map
unchanged when the key is present, otherwise inserts the key at the end
with balance 0. -/
def setdefaultUser (users : List (String × Int)) (uid : String) :
    List (String × Int) :=
  if (List.lookup uid users).isSome then users else users ++ [(uid, 0)]

/-- Assignment `data["users"][uid]["balance"] = b` on a map that contains
`uid` (keys are unique in every reachable map, so replacing every entry
with key `uid` models the single dict update). -/
def setBal (users : List (String × Int)) (uid : String) (b : Int) :
    List (String × Int) :=
  users.map (fun p => if p.1 = uid then (uid, b) else p)

/-- Order status literal `"รออนุมัติ"` written by `OrderModal.on_submit`. -/
def pendingStatus : String := "รออนุมัติ"

/-- Order status literal `"อนุมัติแล้ว"` written by `ApprovalView.approve`. -/
def approvedStatus : String := "อนุมัติแล้ว"

/-- Order status literal `"ปฏิเสธ"` written by `ApprovalView.deny`. -/
def deniedStatus : String := "ปฏิเสธ"

/-- Result of a mutating handler that cannot fail: the new in-memory state
and whether `save_data()` ran. -/
structure MutResult where
  led : Ledger
  flushed : Bool
  deriving Repr, DecidableEq

/-- Result of a fallible mutating handler. -/
structure OpResult (ε α : Type) where
  out : Except ε α
  led : Ledger
  flushed : Bool

/-- Character class `[0-9A-Fa-f]` of `HEX_RE`, by code point. -/
def isHexDigit (c : Char) : Bool :=
  (48 ≤ c.toNat && c.toNat ≤ 57) ||
    (65 ≤ c.toNat && c.toNat ≤ 70) ||
    (97 ≤ c.toNat && c.toNat ≤ 102)

/-- Python `s.startswith("#")`. -/
def startsWithHash (s : String) : Bool :=
  match s.data with
  | c :: _ => c = '#'
  | [] => false

/-- Full match of `HEX_RE = re.compile(r"^#?[0-9A-Fa-f]\x7b6\x7d$")`: an
optional leading `#` followed by exactly six hex digits. -/
def hexMatch (s : String) : Bool :=
  let body := if startsWithHash s then s.data.drop 1 else s.data
  body.length == 6 && body.all isHexDigit

/-- Color stored on the order:
`self.color.value if self.color.value.startswith("#") else f"#\x7bself.color.value\x7d"`. -/
def normalizeColor (s : String) : String :=
  if startsWithHash s then s else "#" ++ s

/-- Flat price for a custom rank order (`price = 50` in `OrderModal.on_submit`). -/
def flatPrice : Int := 50

/-- Admin credit, slash command `เพิ่มเงิน` (`add_balance`): `setdefault`
the account, add `amount` (no sign check in the source), then flush. -/
def add_balance (L : Ledger) (uid : String) (amount : Int) : MutResult :=
  let users := setdefaultUser L.users uid
  let b := (List.lookup uid users).getD 0
  { led := { L with users := setBal users uid (b + amount) }, flushed := true }

/-- Admin debit, slash command `ลดเงิน` (`remove_balance`): `setdefault` the
account, set the balance to `max(0, bal - amount)`, then flush. -/
def remove_balance (L : Ledger) (uid : String) (amount : Int) : MutResult :=
  let users := setdefaultUser L.users uid
  let b := (List.lookup uid users).getD 0
  { led := { L with users := setBal users uid (max 0 (b - amount)) },
    flushed := true }

/-- Error outcomes of `เพิ่มสินค้ายศ`. -/
inductive CatalogAddError where
  | duplicateProduct
  deriving Repr, DecidableEq

/-- Error outcomes of `ลบสินค้ายศ`. -/
inductive CatalogRemoveError where
  | productNotFound
  deriving Repr, DecidableEq

/-- Slash command `เพิ่มสินค้ายศ` (`add_product`): reject an existing name,
otherwise append the product and flush. -/
def add_product (L : Ledger) (emoji name rank : String) (price : Int) :
    OpResult CatalogAddError Unit :=
  if L.products.any (fun p => p.name == name) then
    { out := .error .duplicateProduct, led := L, flushed := false }
  else
    { out := .ok (),
      led := { L with products :=
        L.products ++ [{ emoji := emoji, name := name, rank := rank,
                         price := price, image := "" }] },
      flushed := true }

/-- Slash command `ลบสินค้ายศ` (`remove_product`): filter out every product
with the exact name, call `save_data()` unconditionally, and only then
compare lengths to report `ProductNotFound`. -/
def remove_product (L : Ledger) (name : String) :
    OpResult CatalogRemoveError Unit :=
  let before := L.products.length
  let products := L.products.filter (fun p => !(p.name == name))
  let L' := { L with products := products }
  if products.length == before then
    { out := .error .productNotFound, led := L', flushed := true }
  else
    { out := .ok (), led := L', flushed := true }

/-- Error outcomes of the catalog purchase path (`ProductSelect.callback`). -/
inductive PurchaseError where
  | productNotFound
  | insufficientFunds
  deriving Repr, DecidableEq

/-- Catalog purchase, `ProductSelect.callback`: look the product up by name;
`setdefault` the buyer's account; reject when the balance is below the
price (note the account creation survives this early return and nothing is
flushed); otherwise debit the price and flush.  The returned string is the
role name (`product["rank"]`) the transport layer grants. -/
def purchase (L : Ledger) (uid productName : String) :
    OpResult PurchaseError String :=
  match L.products.find? (fun p => p.name == productName) with
  | none => { out := .error .productNotFound, led := L, flushed := false }
  | some product =>
    let users := setdefaultUser L.users uid
    let bal := (List.lookup uid users).getD 0
    if bal < product.price then
      { out := .error .insufficientFunds,
        led := { L with users := users }, flushed := false }
    else
      { out := .ok product.rank,
        led := { L with users := setBal users uid (bal - product.price) },
        flushed := true }

/-- Error outcomes of `OrderModal.on_submit`. -/
inductive OrderError where
  | invalidColor
  | insufficientFunds
  deriving Repr, DecidableEq

/-- Custom rank order placement, `OrderModal.on_submit`: validate the color
against `HEX_RE` (early return, no mutation, no flush); read the balance
with `get` defaults (no account creation); reject when below the flat
price of 50 (again no mutation, no flush); otherwise debit 50, append a
pending order with `order_id = len(orders) + 1` and the normalized color,
and flush. -/
def placeOrder (L : Ledger) (uid rankName colorValue : String) :
    OpResult OrderError Order :=
  if !(hexMatch colorValue) then
    { out := .error .invalidColor, led := L, flushed := false }
  else
    let bal := getBalance L uid
    if bal < flatPrice then
      { out := .error .insufficientFunds, led := L, flushed := false }
    else
      let order : Order :=
        { order_id := (L.orders.length : Int) + 1, user_id := uid,
          rank_name := rankName, color := normalizeColor colorValue,
          price := flatPrice, status := pendingStatus }
      let L' :=
        { L with
          users := setBal L.users uid (bal - flatPrice)
          orders := L.orders ++ [order] }
      { out := .ok order, led := L', flushed := true }

/-- Approval button, `ApprovalView.approve`: the view holds the order dict
`o` (the same object as the entry of `data["orders"]` with its id, which
is unique in every reachable ledger); the handler performs the external
role side effect, then sets `status = "อนุมัติแล้ว"` and flushes.  There is
no check of the current status and no error path. -/
def approveOrder (L : Ledger) (o : Order) : MutResult :=
  { led := { L with orders := L.orders.map (fun x =>
      if x.order_id = o.order_id then { x with status := approvedStatus }
      else x) },
    flushed := true }

/-- Denial button, `ApprovalView.deny`: `setdefault` the ordering user's
account, credit the captured order's `price`, set `status = "ปฏิเสธ"`, and
flush.  As with approve, there is no check of the current status and no
error path. -/
def denyOrder (L : Ledger) (o : Order) : MutResult :=
  let users := setdefaultUser L.users o.user_id
  let b := (List.lookup o.user_id users).getD 0
  let L' :=
    { L with
      users := setBal users o.user_id (b + o.price)
      orders := L.orders.map (fun x =>
        if x.order_id = o.order_id then { x with status := deniedStatus }
        else x) }
  { led := L', flushed := true }

/-- Response of the TrueWallet verification collaborator as consumed by
`TopupModal.on_submit`: `check_topup` returns `None` (missing API key,
non-200 response) or a parsed JSON dict, from which the handler reads
`result.get("status")` and `result.get("amount", 0)`; the optional field
models the presence of the `"amount"` key. -/
structure TopupResp where
  status : String
  amount : Option Int
  deriving Repr, DecidableEq

/-- Error outcome of `TopupModal.on_submit`. -/
inductive TopupError where
  | rejected
  deriving Repr, DecidableEq

/-- Topup, `TopupModal.on_submit`: reject (no mutation, no flush) unless the
verification result is present with `status == "success"`; otherwise read
`amount` with default 0 (no positivity check in the source), credit it via
`setdefault`, append the audit record, and flush.  The ok value is the
credited amount. -/
def topupSubmit (L : Ledger) (uid link : String) (result : Option TopupResp) :
    OpResult TopupError Int :=
  match result with
  | none => { out := .error .rejected, led := L, flushed := false }
  | some r =>
    if !(r.status == "success") then
      { out := .error .rejected, led := L, flushed := false }
    else
      let amount := r.amount.getD 0
      let users := setdefaultUser L.users uid
      let b := (List.lookup uid users).getD 0
      let L' :=
        { L with
          users := setBal users uid (b + amount)
          topup_logs := L.topup_logs ++
            [{ user_id := uid, amount := amount, link := link }] }
      { out := .ok amount, led := L', flushed := true }

/-- Structural JSON values, the shape json.dumps/json.loads round-trips:
every value the ledger stores is a string, an integer, an array, or an
object with ordered string keys.  The textual layer (escaping, whitespace)
belongs to the external `json` module, which `save_data`/`load_data`
delegate to; we model persistence at this structural level. -/
inductive JValue where
  | jstr : String → JValue
  | jint : Int → JValue
  | jarr : List JValue → JValue
  | jobj : List (String × JValue) → JValue

/-- Dict shape of a product inside `data["products"]`. -/
def encodeProduct (p : Product) : JValue :=
  .jobj [("emoji", .jstr p.emoji), ("name", .jstr p.name),
         ("rank", .jstr p.rank), ("price", .jint p.price),
         ("image", .jstr p.image)]

/-- Dict shape of an order inside `data["orders"]`. -/
def encodeOrder (o : Order) : JValue :=
  .jobj [("order_id", .jint o.order_id), ("user_id", .jstr o.user_id),
         ("rank_name", .jstr o.rank_name), ("color", .jstr o.color),
         ("price", .jint o.price), ("status", .jstr o.status)]

/-- Dict shape of a topup record inside `data["topup_logs"]`. -/
def encodeTopup (t : TopupRecord) : JValue :=
  .jobj [("user_id", .jstr t.user_id), ("amount", .jint t.amount),
         ("link", .jstr t.link)]

/-- Entry of the `data["users"]` object: `uid -> \x7b"balance": n\x7d`. -/
def encodeUser (u : String × Int) : String × JValue :=
  (u.1, .jobj [("balance", .jint u.2)])

/-- Document written by `save_data`: the entire in-memory dict with its four
top-level fields, serialized in one piece. -/
def saveData (L : Ledger) : JValue :=
  .jobj [("products", .jarr (L.products.map encodeProduct)),
         ("orders", .jarr (L.orders.map encodeOrder)),
         ("users", .jobj (L.users.map encodeUser)),
         ("topup_logs", .jarr (L.topup_logs.map encodeTopup))]

/-- Modelled from the spec: `load_data` returns the parsed document as-is
and the source reads its fields only at use sites, so the typed reading of
a product dict is made explicit here, inverting `encodeProduct`. -/
def decodeProduct : JValue → Option Product
  | .jobj [("emoji", .jstr e), ("name", .jstr n), ("rank", .jstr r),
           ("price", .jint p), ("image", .jstr i)] =>
    some { emoji := e, name := n, rank := r, price := p, image := i }
  | _ => none

/-- Modelled from the spec: typed reading of an order dict. -/
def decodeOrder : JValue → Option Order
  | .jobj [("order_id", .jint oid), ("user_id", .jstr u),
           ("rank_name", .jstr rn), ("color", .jstr c),
           ("price", .jint p), ("status", .jstr st)] =>
    some { order_id := oid, user_id := u, rank_name := rn, color := c,
           price := p, status := st }
  | _ => none

/-- Modelled from the spec: typed reading of a topup record dict. -/
def decodeTopup : JValue → Option TopupRecord
  | .jobj [("user_id", .jstr u), ("amount", .jint a), ("link", .jstr l)] =>
    some { user_id := u, amount := a, link := l }
  | _ => none

/-- Modelled from the spec: typed reading of a `data["users"]` entry. -/
def decodeUser : String × JValue → Option (String × Int)
  | (u, .jobj [("balance", .jint b)]) => some (u, b)
  | _ => none

/-- Decode every element of a list, failing if any element fails. -/
def decodeList {σ α : Type} (f : σ → Option α) : List σ → Option (List α)
  | [] => some []
  | j :: js =>
    match f j, decodeList f js with
    | some a, some as => some (a :: as)
    | _, _ => none

/-- Modelled from the spec: typed reading of the whole persisted document,
inverting `saveData`; `none` stands for the malformed-content case in
which `load_data` falls back to the fresh empty structure. -/
def decodeLedger : JValue → Option Ledger
  | .jobj [("products", .jarr ps), ("orders", .jarr os),
           ("users", .jobj us), ("topup_logs", .jarr ts)] =>
    match decodeList decodeProduct ps, decodeList decodeOrder os,
        decodeList decodeUser us, decodeList decodeTopup ts with
    | some products, some orders, some users, some logs =>
      some { products := products, orders := orders, users := users,
             topup_logs := logs }
    | _, _, _, _ => none
  | _ => none

/-- The `load_data` contract: parse the stored document, falling back to
the fresh empty structure on malformed content. -/
def loadData (j : JValue) : Ledger :=
  (decodeLedger j).getD emptyLedger

/-- All recorded balances are non-negative. -/
def allNonNeg (users : List (String × Int)) : Prop :=
  ∀ p ∈ users, 0 ≤ p.2

/-- Every account in the ledger has a non-negative balance. -/
def balancesNonNeg (L : Ledger) : Prop :=
  allNonNeg L.users

/-- A pending custom-rank order as created by `OrderModal.on_submit`, used
as concrete input for the order-lifecycle scenarios. -/
def c1Order : Order :=
  { order_id := 1, user_id := "u", rank_name := "Shadow",
    color := "#ff66cc", price := 50, status := pendingStatus }

/-- Ledger holding the pending order `c1Order` with the buyer's balance
already debited to 0 (the state right after placing the order with an
initial balance of 50). -/
def c1Ledger : Ledger :=
  { products := [], orders := [c1Order], users := [("u", 0)],
    topup_logs := [] }

/-- Product used as concrete input for the catalog scenarios. -/
def vipProduct : Product :=
  { emoji := "💎", name := "VIP", rank := "VIP-Role", price := 10,
    image := "" }

/-- One-product catalog used as concrete input for the catalog scenarios. -/
def vipCatalog : Ledger :=
  { products := [vipProduct], orders := [], users := [], topup_logs := [] }

/-- Ledger with one funded account, used as concrete input for the order
placement scenarios. -/
def fundedLedger : Ledger :=
  { products := [], orders := [], users := [("u1", 50)], topup_logs := [] }

/-- Verification response used as concrete input for the topup scenarios. -/
def okResp : TopupResp := { status := "success", amount := some 7 }

/-- The order `placeOrder` creates from `fundedLedger` for user "u1" with
rank "Shadow" and color "ff66cc". -/
def shadowOrder : Order :=
  { order_id := 1, user_id := "u1", rank_name := "Shadow",
    color := "#ff66cc", price := 50, status := pendingStatus }

/-- The ledger state right after placing `shadowOrder` from
`fundedLedger`: the fee is debited and the pending order recorded. -/
def shadowLedger : Ledger :=
  { products := [], orders := [shadowOrder], users := [("u1", 0)],
    topup_logs := [] }

/-! Helper lemmas about the association-list operations. -/

theorem lookup_cons_self (a : String) (v : Int) (l : List (String × Int)) :
    List.lookup a ((a, v) :: l) = some v := by
  simp [List.lookup]

theorem lookup_cons_ne (a k : String) (v : Int) (l : List (String × Int))
    (h : a ≠ k) : List.lookup a ((k, v) :: l) = List.lookup a l := by
  simp [List.lookup, beq_eq_false_iff_ne.mpr h]

theorem lookup_append_of_none (a : String) (l l' : List (String × Int))
    (h : List.lookup a l = none) :
    List.lookup a (l ++ l') = List.lookup a l' := by
  induction l with
  | nil => simp
  | cons p t ih =>
    by_cases hk : a = p.1
    · subst hk
      simp [List.lookup] at h
    · obtain ⟨k, v⟩ := p
      simp only [List.cons_append, lookup_cons_ne _ _ _ _ hk] at h ⊢
      exact ih h

theorem lookup_setBal_self (users : List (String × Int)) (uid : String)
    (b : Int) :
    List.lookup uid (setBal users uid b) =
      (List.lookup uid users).map (fun _ => b) := by
  induction users with
  | nil => simp [setBal]
  | cons p t ih =>
    obtain ⟨k, v⟩ := p
    by_cases hk : k = uid
    · subst hk
      simp [setBal, lookup_cons_self]
    · have huk : uid ≠ k := fun he => hk he.symm
      simp only [setBal, List.map_cons] at ih ⊢
      rw [if_neg (by simpa using hk), lookup_cons_ne _ _ _ _ huk,
        lookup_cons_ne _ _ _ _ huk, ih]

theorem lookup_setdefault (users : List (String × Int)) (uid : String) :
    List.lookup uid (setdefaultUser users uid) =
      some ((List.lookup uid users).getD 0) := by
  unfold setdefaultUser
  cases h : List.lookup uid users with
  | some b => simp [h]
  | none => simp [h, lookup_append_of_none _ _ _ h, lookup_cons_self]

theorem allNonNeg_setdefault (users : List (String × Int)) (uid : String)
    (h : allNonNeg users) : allNonNeg (setdefaultUser users uid) := by
  unfold setdefaultUser
  split
  · exact h
  · intro p hp
    rcases List.mem_append.1 hp with hmem | hmem
    · exact h p hmem
    · simp only [List.mem_singleton] at hmem
      simp [hmem]

theorem allNonNeg_setBal (users : List (String × Int)) (uid : String)
    (b : Int) (h : allNonNeg users) (hb : 0 ≤ b) :
    allNonNeg (setBal users uid b) := by
  intro p hp
  simp only [setBal, List.mem_map] at hp
  obtain ⟨q, hq, heq⟩ := hp
  by_cases hk : q.1 = uid
  · rw [if_pos hk] at heq
    simp [← heq, hb]
  · rw [if_neg hk] at heq
    exact heq ▸ h q hq

theorem lookup_getD_nonneg (users : List (String × Int)) (uid : String)
    (h : allNonNeg users) : 0 ≤ (List.lookup uid users).getD 0 := by
  induction users with
  | nil => simp
  | cons p t ih =>
    obtain ⟨k, v⟩ := p
    have ht : allNonNeg t := fun q hq => h q (List.mem_cons_of_mem _ hq)
    by_cases hk : uid = k
    · subst hk
      rw [lookup_cons_self]
      exact h (uid, v) (List.mem_cons_self _ _)
    · rw [lookup_cons_ne _ _ _ _ hk]
      exact ih ht

theorem lookup_setBal_getD (users : List (String × Int)) (uid : String)
    (b : Int) (h : (List.lookup uid users).isSome) :
    (List.lookup uid (setBal users uid b)).getD 0 = b := by
  rw [lookup_setBal_self]
  cases hl : List.lookup uid users with
  | none => rw [hl] at h; simp at h
  | some v => simp

theorem lookup_credit (users : List (String × Int)) (uid : String)
    (amount : Int) :
    (List.lookup uid (setBal (setdefaultUser users uid) uid
      ((List.lookup uid (setdefaultUser users uid)).getD 0 + amount))).getD 0 =
      (List.lookup uid users).getD 0 + amount := by
  rw [lookup_setBal_self, lookup_setdefault]
  rfl

/-- The balance credited by `ApprovalView.deny` lands on the ordering
user's account: afterwards it reads exactly `price` higher. -/
theorem getBalance_denyOrder (L : Ledger) (o : Order) :
    getBalance (denyOrder L o).led o.user_id =
      getBalance L o.user_id + o.price := by
  unfold getBalance denyOrder
  exact lookup_credit L.users o.user_id o.price

/-! Helper lemmas about the color validation and normalization. -/

theorem isHexDigit_ne_hash (c : Char) (hc : isHexDigit c = true) :
    c ≠ '#' := by
  intro he
  subst he
  exact absurd hc (by decide)

theorem startsWithHash_of_hex (s : String) (hlen : s.data.length = 6)
    (hhex : s.data.all isHexDigit = true) : startsWithHash s = false := by
  cases hd : s.data with
  | nil => rw [hd] at hlen; simp at hlen
  | cons c rest =>
    have hc : isHexDigit c = true := by
      rw [hd] at hhex
      simp only [List.all_cons, Bool.and_eq_true] at hhex
      exact hhex.1
    unfold startsWithHash
    rw [hd]
    simp [isHexDigit_ne_hash c hc]

theorem data_hash_append (s : String) : ("#" ++ s).data = '#' :: s.data := by
  rw [String.data_append]
  rfl

theorem startsWithHash_hash_append (s : String) :
    startsWithHash ("#" ++ s) = true := by
  unfold startsWithHash
  rw [data_hash_append]
  rfl

theorem hexMatch_of_hex (s : String) (hlen : s.data.length = 6)
    (hhex : s.data.all isHexDigit = true) : hexMatch s = true := by
  simp [hexMatch, startsWithHash_of_hex s hlen hhex, hlen, hhex]

theorem hexMatch_hash_append (s : String) (hlen : s.data.length = 6)
    (hhex : s.data.all isHexDigit = true) : hexMatch ("#" ++ s) = true := by
  simp [hexMatch, startsWithHash_hash_append, data_hash_append, hlen, hhex]

theorem normalizeColor_of_hex (s : String) (hlen : s.data.length = 6)
    (hhex : s.data.all isHexDigit = true) :
    normalizeColor s = "#" ++ s := by
  simp [normalizeColor, startsWithHash_of_hex s hlen hhex]

theorem normalizeColor_hash_append (s : String) :
    normalizeColor ("#" ++ s) = "#" ++ s := by
  simp [normalizeColor, startsWithHash_hash_append]

/-! Helper lemmas for the persistence round trip. -/

theorem decodeList_map {α σ : Type} (f : σ → Option α) (g : α → σ)
    (h : ∀ x, f (g x) = some x) (l : List α) :
    decodeList f (l.map g) = some l := by
  induction l with
  | nil => rfl
  | cons x t ih => simp [decodeList, h x, ih]

theorem decodeProduct_encode (p : Product) :
    decodeProduct (encodeProduct p) = some p := rfl

theorem decodeOrder_encode (o : Order) :
    decodeOrder (encodeOrder o) = some o := rfl

theorem decodeTopup_encode (t : TopupRecord) :
    decodeTopup (encodeTopup t) = some t := rfl

theorem decodeUser_encode (u : String × Int) :
    decodeUser (encodeUser u) = some u := rfl

theorem decodeLedger_saveData (L : Ledger) :
    decodeLedger (saveData L) = some L := by
  show (match decodeList decodeProduct (L.products.map encodeProduct),
        decodeList decodeOrder (L.orders.map encodeOrder),
        decodeList decodeUser (L.users.map encodeUser),
        decodeList decodeTopup (L.topup_logs.map encodeTopup) with
    | some products, some orders, some users, some logs =>
      some { products := products, orders := orders, users := users,
             topup_logs := logs }
    | _, _, _, _ => none) = some L
  rw [decodeList_map decodeProduct encodeProduct decodeProduct_encode,
    decodeList_map decodeOrder encodeOrder decodeOrder_encode,
    decodeList_map decodeUser encodeUser decodeUser_encode,
    decodeList_map decodeTopup encodeTopup decodeTopup_encode]

/-! Claim theorems. -/

/-- Claim C1: contrary to the claim, neither `ApprovalView.approve` nor
`ApprovalView.deny` checks the current status: on an already-denied order
a second deny refunds the price a second time (balance 50 → 100) and
flushes instead of failing with `OrderAlreadyFinalized`; a second approve
also succeeds and flushes (its state happens to be unchanged, but no
error is raised). -/
theorem c1_no_finalized_guard :
    getBalance (denyOrder c1Ledger c1Order).led "u" = 50 ∧
    (denyOrder (denyOrder c1Ledger c1Order).led
      { c1Order with status := deniedStatus }).flushed = true ∧
    getBalance (denyOrder (denyOrder c1Ledger c1Order).led
      { c1Order with status := deniedStatus }).led "u" = 100 ∧
    (approveOrder (approveOrder c1Ledger c1Order).led
      { c1Order with status := approvedStatus }).led =
      (approveOrder c1Ledger c1Order).led ∧
    (approveOrder (approveOrder c1Ledger c1Order).led
      { c1Order with status := approvedStatus }).flushed = true := by
  decide

/-- Claim C2 counterexample: the admin credit command performs no positivity
check, so crediting -1 to a fresh account completes (it flushes) and
leaves a negative balance, refuting both "credit requires a positive
integer amount" and "every user's balance is non-negative after every
completed operation". -/
theorem c2_counterexample :
    (add_balance emptyLedger "u" (-1)).flushed = true ∧
    getBalance (add_balance emptyLedger "u" (-1)).led "u" = -1 ∧
    ¬ balancesNonNeg (add_balance emptyLedger "u" (-1)).led := by
  refine ⟨rfl, rfl, fun hinv => ?_⟩
  exact absurd (hinv ("u", -1) (by decide)) (by decide)

/-- Claim C4: with a valid color and a balance strictly below the flat fee of
50, `OrderModal.on_submit` fails with the insufficient-funds message and
returns before any mutation: the ledger is exactly the input ledger and
`save_data` is not called. -/
theorem c4_insufficient_funds (L : Ledger) (uid rank color : String)
    (hcol : hexMatch color = true) (hbal : getBalance L uid < flatPrice) :
    placeOrder L uid rank color =
      { out := .error .insufficientFunds, led := L, flushed := false } := by
  simp [placeOrder, hcol, hbal]

/-- Claim C4 witness: a user unknown to the ledger has balance 0 < 50, and the
order attempt with the valid color "ff66cc" fails without any change. -/
theorem c4_witness :
    hexMatch "ff66cc" = true ∧
    getBalance emptyLedger "u2" < flatPrice ∧
    placeOrder emptyLedger "u2" "Shadow" "ff66cc" =
      { out := .error .insufficientFunds, led := emptyLedger,
        flushed := false } :=
  ⟨by decide, by decide,
    c4_insufficient_funds emptyLedger "u2" "Shadow" "ff66cc" (by decide)
      (by decide)⟩

/-- Claim C5: whenever the color fails the `HEX_RE` full match,
`OrderModal.on_submit` fails with the invalid-color message and returns
before any mutation: the ledger (orders, balances, everything) is exactly
the input ledger and `save_data` is not called. -/
theorem c5_invalid_color (L : Ledger) (uid rank color : String)
    (hcol : hexMatch color = false) :
    placeOrder L uid rank color =
      { out := .error .invalidColor, led := L, flushed := false } := by
  simp [placeOrder, hcol]

/-- Claim C5 witness: a five-digit color (wrong length) and a color with a
non-hexadecimal character are both rejected without any change, even for
a user whose balance covers the fee. -/
theorem c5_witness :
    hexMatch "ff66c" = false ∧
    placeOrder fundedLedger "u1" "Shadow" "ff66c" =
      { out := .error .invalidColor, led := fundedLedger,
        flushed := false } ∧
    hexMatch "gg66cc" = false ∧
    placeOrder fundedLedger "u1" "Shadow" "gg66cc" =
      { out := .error .invalidColor, led := fundedLedger,
        flushed := false } :=
  ⟨by decide, c5_invalid_color fundedLedger "u1" "Shadow" "ff66c" (by decide),
    by decide,
    c5_invalid_color fundedLedger "u1" "Shadow" "gg66cc" (by decide)⟩

/-- Claim C6 counterexample: removing a product from an empty catalog reports
not-found and leaves the ledger unchanged, but `save_data` has already
been called unconditionally, refuting the claim that no flush occurs. -/
theorem c6_counterexample :
    (remove_product emptyLedger "x").out = .error .productNotFound ∧
    (remove_product emptyLedger "x").led = emptyLedger ∧
    (remove_product emptyLedger "x").flushed = true :=
  ⟨rfl, rfl, rfl⟩

/-- Claim C6 (amended): with no product of the exact name, `remove_product`
fails with not-found and the in-memory ledger is unchanged, but a flush
still occurs (the source calls `save_data` before comparing lengths);
with a match, the products with that name are removed and a flush
occurs. -/
theorem c6_remove_product (L : Ledger) (name : String) :
    ((∀ p ∈ L.products, p.name ≠ name) →
      (remove_product L name).out = .error .productNotFound ∧
      (remove_product L name).led = L ∧
      (remove_product L name).flushed = true) ∧
    ((∃ p ∈ L.products, p.name = name) →
      (remove_product L name).out = .ok () ∧
      (∀ p ∈ (remove_product L name).led.products, p.name ≠ name) ∧
      (remove_product L name).flushed = true) := by
  constructor
  · intro h
    have hf : L.products.filter (fun p => !(p.name == name)) = L.products :=
      List.filter_eq_self.mpr (by
        intro a ha
        simpa using h a ha)
    refine ⟨?_, ?_, ?_⟩ <;> simp [remove_product, hf]
  · intro h
    obtain ⟨p, hp, hname⟩ := h
    have hlt : (L.products.filter (fun p => !(p.name == name))).length <
        L.products.length := by
      refine List.length_filter_lt_length_iff_exists.mpr ?_
      exact ⟨p, hp, by simp [hname]⟩
    have hne : ((L.products.filter (fun p => !(p.name == name))).length ==
        L.products.length) = false := by
      simp [Nat.ne_of_lt hlt]
    refine ⟨?_, ?_, ?_⟩
    · simp [remove_product, hne]
    · intro q hq
      have hq' : q ∈ L.products.filter (fun p => !(p.name == name)) := by
        simpa [remove_product, hne] using hq
      have := (List.mem_filter.1 hq').2
      simpa using this
    · simp [remove_product, hne]

/-- Claim C6 witness: on the one-product catalog, removing "x" fails but still
flushes with the ledger unchanged, and removing "VIP" succeeds, flushes,
and leaves no product named "VIP". -/
theorem c6_witness :
    ((∀ p ∈ vipCatalog.products, p.name ≠ "x") ∧
      ((remove_product vipCatalog "x").out = .error .productNotFound ∧
       (remove_product vipCatalog "x").led = vipCatalog ∧
       (remove_product vipCatalog "x").flushed = true)) ∧
    ((∃ p ∈ vipCatalog.products, p.name = "VIP") ∧
      ((remove_product vipCatalog "VIP").out = .ok () ∧
       (∀ p ∈ (remove_product vipCatalog "VIP").led.products,
          p.name ≠ "VIP") ∧
       (remove_product vipCatalog "VIP").flushed = true)) :=
  ⟨⟨by decide, (c6_remove_product vipCatalog "x").1 (by decide)⟩,
   ⟨by decide, (c6_remove_product vipCatalog "VIP").2 (by decide)⟩⟩

/-- Claim C9: serializing the whole in-memory ledger (`save_data`) and parsing
it back (`load_data`) reproduces the same ledger: the same products,
orders, users with balances, and topup logs, for every ledger value. -/
theorem c9_flush_load_roundtrip (L : Ledger) : loadData (saveData L) = L := by
  unfold loadData
  rw [decodeLedger_saveData]
  rfl

/-- Claim C2 (amended): starting from a ledger whose balances are all
non-negative, every mutating operation preserves that invariant provided
the externally supplied amounts are non-negative: admin credit with a
non-negative amount, admin debit with any amount (it clamps at zero),
catalog purchase, order placement, denial refund of an order with
non-negative price, approval, and topup with a non-negative verified
amount.  (The unamended claim fails because neither admin credit nor the
topup amount is validated; see the counterexample.) -/
theorem c2_balances_nonneg (L : Ledger) (h : balancesNonNeg L) :
    (∀ uid amount, 0 ≤ amount →
      balancesNonNeg (add_balance L uid amount).led) ∧
    (∀ uid amount, balancesNonNeg (remove_balance L uid amount).led) ∧
    (∀ uid pname, balancesNonNeg (purchase L uid pname).led) ∧
    (∀ uid rank color, balancesNonNeg (placeOrder L uid rank color).led) ∧
    (∀ o : Order, 0 ≤ o.price → balancesNonNeg (denyOrder L o).led) ∧
    (∀ o : Order, balancesNonNeg (approveOrder L o).led) ∧
    (∀ uid link r, 0 ≤ (TopupResp.amount r).getD 0 →
      balancesNonNeg (topupSubmit L uid link (some r)).led) ∧
    (∀ uid link, balancesNonNeg (topupSubmit L uid link none).led) := by
  have hsd : ∀ uid, allNonNeg (setdefaultUser L.users uid) :=
    fun uid => allNonNeg_setdefault L.users uid h
  have hget : ∀ uid, 0 ≤ (List.lookup uid (setdefaultUser L.users uid)).getD 0 :=
    fun uid => lookup_getD_nonneg _ uid (hsd uid)
  refine ⟨?_, ?_, ?_, ?_, ?_, ?_, ?_, ?_⟩
  · intro uid amount ha
    exact allNonNeg_setBal _ _ _ (hsd uid) (add_nonneg (hget uid) ha)
  · intro uid amount
    exact allNonNeg_setBal _ _ _ (hsd uid) (le_max_left 0 _)
  · intro uid pname
    cases hf : L.products.find? (fun p => p.name == pname) with
    | none =>
      have hled : (purchase L uid pname).led = L := by simp [purchase, hf]
      rw [hled]
      exact h
    | some prod =>
      by_cases hlt :
          (List.lookup uid (setdefaultUser L.users uid)).getD 0 < prod.price
      · have hled : (purchase L uid pname).led.users =
            setdefaultUser L.users uid := by simp [purchase, hf, hlt]
        unfold balancesNonNeg
        rw [hled]
        exact hsd uid
      · have hled : (purchase L uid pname).led.users =
            setBal (setdefaultUser L.users uid) uid
              ((List.lookup uid (setdefaultUser L.users uid)).getD 0 -
                prod.price) := by simp [purchase, hf, hlt]
        unfold balancesNonNeg
        rw [hled]
        exact allNonNeg_setBal _ _ _ (hsd uid)
          (sub_nonneg.mpr (not_lt.mp hlt))
  · intro uid rank color
    by_cases hc : hexMatch color
    · by_cases hb : getBalance L uid < flatPrice
      · have hled : (placeOrder L uid rank color).led = L := by
          simp [placeOrder, hc, hb]
        rw [hled]
        exact h
      · have hled : (placeOrder L uid rank color).led.users =
            setBal L.users uid (getBalance L uid - flatPrice) := by
          simp [placeOrder, hc, hb]
        unfold balancesNonNeg
        rw [hled]
        exact allNonNeg_setBal _ _ _ h (sub_nonneg.mpr (not_lt.mp hb))
    · have hled : (placeOrder L uid rank color).led = L := by
        simp [placeOrder, Bool.eq_false_iff.mpr hc]
      rw [hled]
      exact h
  · intro o hp
    unfold balancesNonNeg
    exact allNonNeg_setBal _ _ _ (hsd o.user_id)
      (add_nonneg (hget o.user_id) hp)
  · intro o
    exact h
  · intro uid link r ha
    by_cases hs : r.status = "success"
    · have hled : (topupSubmit L uid link (some r)).led.users =
          setBal (setdefaultUser L.users uid) uid
            ((List.lookup uid (setdefaultUser L.users uid)).getD 0 +
              r.amount.getD 0) := by simp [topupSubmit, hs]
      unfold balancesNonNeg
      rw [hled]
      exact allNonNeg_setBal _ _ _ (hsd uid) (add_nonneg (hget uid) ha)
    · have hled : (topupSubmit L uid link (some r)).led = L := by
        simp [topupSubmit, beq_eq_false_iff_ne.mpr hs]
      rw [hled]
      exact h
  · intro uid link
    exact h

/-- Claim C2 witness: the empty ledger satisfies the invariant, so every listed
operation preserves it from there. -/
theorem c2_witness :
    balancesNonNeg emptyLedger ∧
    ((∀ uid amount, 0 ≤ amount →
        balancesNonNeg (add_balance emptyLedger uid amount).led) ∧
      (∀ uid amount, balancesNonNeg (remove_balance emptyLedger uid amount).led) ∧
      (∀ uid pname, balancesNonNeg (purchase emptyLedger uid pname).led) ∧
      (∀ uid rank color,
        balancesNonNeg (placeOrder emptyLedger uid rank color).led) ∧
      (∀ o : Order, 0 ≤ o.price →
        balancesNonNeg (denyOrder emptyLedger o).led) ∧
      (∀ o : Order, balancesNonNeg (approveOrder emptyLedger o).led) ∧
      (∀ uid link r, 0 ≤ (TopupResp.amount r).getD 0 →
        balancesNonNeg (topupSubmit emptyLedger uid link (some r)).led) ∧
      (∀ uid link, balancesNonNeg (topupSubmit emptyLedger uid link none).led)) :=
  ⟨fun p hp => absurd hp (List.not_mem_nil p),
    c2_balances_nonneg emptyLedger (fun p hp => absurd hp (List.not_mem_nil p))⟩

/-- Claim C3: if `OrderModal.on_submit` succeeds, creating order `o` and state
`L'`, then denying `o` from `L'` credits exactly the order's price back,
so the buyer's balance equals their balance before the order was
placed. -/
theorem c3_deny_full_refund (L : Ledger) (uid rank color : String)
    (o : Order) (L' : Ledger) (f : Bool)
    (h : placeOrder L uid rank color =
      { out := .ok o, led := L', flushed := f }) :
    getBalance (denyOrder L' o).led uid = getBalance L uid := by
  unfold placeOrder at h
  by_cases hc : hexMatch color
  · rw [if_neg (by simp [hc])] at h
    simp only [] at h
    by_cases hb : getBalance L uid < flatPrice
    · rw [if_pos hb] at h
      simp at h
    · rw [if_neg hb] at h
      have hsome : (List.lookup uid L.users).isSome := by
        cases hl : List.lookup uid L.users with
        | none =>
          exfalso
          exact hb (by norm_num [getBalance, hl, flatPrice])
        | some v => simp
      simp only [OpResult.mk.injEq, Except.ok.injEq] at h
      obtain ⟨ho, hled, hf⟩ := h
      subst ho
      subst hled
      calc getBalance (denyOrder
            { L with
              users := setBal L.users uid (getBalance L uid - flatPrice)
              orders := L.orders ++
                [{ order_id := (L.orders.length : Int) + 1, user_id := uid,
                   rank_name := rank, color := normalizeColor color,
                   price := flatPrice, status := pendingStatus }] }
            { order_id := (L.orders.length : Int) + 1, user_id := uid,
              rank_name := rank, color := normalizeColor color,
              price := flatPrice, status := pendingStatus }).led uid
          = (getBalance L uid - flatPrice) + flatPrice := by
            have hcalc := getBalance_denyOrder
              { L with
                users := setBal L.users uid (getBalance L uid - flatPrice)
                orders := L.orders ++
                  [{ order_id := (L.orders.length : Int) + 1, user_id := uid,
                     rank_name := rank, color := normalizeColor color,
                     price := flatPrice, status := pendingStatus }] }
              { order_id := (L.orders.length : Int) + 1, user_id := uid,
                rank_name := rank, color := normalizeColor color,
                price := flatPrice, status := pendingStatus }
            rw [hcalc]
            congr 1
            exact lookup_setBal_getD L.users uid _ hsome
        _ = getBalance L uid := by ring
  · rw [if_pos (by simp [Bool.eq_false_iff.mpr hc])] at h
    simp at h

/-- Claim C3 witness: placing the scenario order from a balance of 50 debits it
to 0, and denying the created order restores the balance to 50. -/
theorem c3_witness :
    placeOrder fundedLedger "u1" "Shadow" "ff66cc" =
      { out := .ok shadowOrder, led := shadowLedger, flushed := true } ∧
    getBalance (denyOrder shadowLedger shadowOrder).led "u1" =
      getBalance fundedLedger "u1" :=
  ⟨rfl, c3_deny_full_refund fundedLedger "u1" "Shadow" "ff66cc" shadowOrder
    shadowLedger true rfl⟩

/-- Claim C7 counterexample: a verified success response whose amount is 0 is
accepted: the handler credits 0 and appends a `TopupRecord` with
`amount = 0`, refuting "every appended TopupRecord has amount > 0" and
"credits only on a positive integer amount". -/
theorem c7_counterexample :
    (topupSubmit emptyLedger "u" "slip"
      (some { status := "success", amount := some 0 })).out = .ok 0 ∧
    (topupSubmit emptyLedger "u" "slip"
      (some { status := "success", amount := some 0 })).led.topup_logs =
      [{ user_id := "u", amount := 0, link := "slip" }] ∧
    ¬ (∀ t ∈ (topupSubmit emptyLedger "u" "slip"
        (some { status := "success", amount := some 0 })).led.topup_logs,
        0 < t.amount) := by
  refine ⟨rfl, rfl, fun hall => ?_⟩
  exact absurd (hall { user_id := "u", amount := 0, link := "slip" }
    (by decide)) (by decide)

/-- Claim C7 (amended): `TopupModal.on_submit` credits the user and appends a
`TopupRecord` exactly when the verification response is present with
status "success"; the credited amount equals the appended record's
amount, namely the response's amount field with default 0 — without any
positivity requirement.  Any other response leaves the ledger unchanged
with no flush. -/
theorem c7_topup (L : Ledger) (uid link : String) (r : TopupResp)
    (h : r.status = "success") :
    (topupSubmit L uid link (some r)).out = .ok (r.amount.getD 0) ∧
    (topupSubmit L uid link (some r)).led.topup_logs =
      L.topup_logs ++
        [{ user_id := uid, amount := r.amount.getD 0, link := link }] ∧
    getBalance (topupSubmit L uid link (some r)).led uid =
      getBalance L uid + r.amount.getD 0 ∧
    (topupSubmit L uid link (some r)).flushed = true ∧
    (∀ r' : TopupResp, r'.status ≠ "success" →
      topupSubmit L uid link (some r') =
        { out := .error .rejected, led := L, flushed := false }) ∧
    topupSubmit L uid link none =
      { out := .error .rejected, led := L, flushed := false } := by
  refine ⟨?_, ?_, ?_, ?_, ?_, rfl⟩
  · simp [topupSubmit, h]
  · simp [topupSubmit, h]
  · have hled : (topupSubmit L uid link (some r)).led.users =
        setBal (setdefaultUser L.users uid) uid
          ((List.lookup uid (setdefaultUser L.users uid)).getD 0 +
            r.amount.getD 0) := by simp [topupSubmit, h]
    unfold getBalance
    rw [hled]
    exact lookup_credit L.users uid (r.amount.getD 0)
  · simp [topupSubmit, h]
  · intro r' hr'
    simp [topupSubmit, beq_eq_false_iff_ne.mpr hr']

/-- Claim C7 witness: a success response with amount 7 credits 7 to a fresh
account and logs the matching record. -/
theorem c7_witness :
    okResp.status = "success" ∧
    ((topupSubmit emptyLedger "u" "slip" (some okResp)).out =
        .ok (okResp.amount.getD 0) ∧
      (topupSubmit emptyLedger "u" "slip" (some okResp)).led.topup_logs =
        emptyLedger.topup_logs ++
          [{ user_id := "u", amount := okResp.amount.getD 0,
             link := "slip" }] ∧
      getBalance (topupSubmit emptyLedger "u" "slip" (some okResp)).led "u" =
        getBalance emptyLedger "u" + okResp.amount.getD 0 ∧
      (topupSubmit emptyLedger "u" "slip" (some okResp)).flushed = true ∧
      (∀ r' : TopupResp, r'.status ≠ "success" →
        topupSubmit emptyLedger "u" "slip" (some r') =
          { out := .error .rejected, led := emptyLedger,
            flushed := false }) ∧
      topupSubmit emptyLedger "u" "slip" none =
        { out := .error .rejected, led := emptyLedger, flushed := false }) :=
  ⟨rfl, c7_topup emptyLedger "u" "slip" okResp rfl⟩

/-- Claim C8: every six-hex-digit string is accepted by `OrderModal.on_submit`
both bare and with a leading "#", and in both cases the created order
stores the identical canonical color `"#" ++ s`. -/
theorem c8_color_normalization (L : Ledger) (uid rank s : String)
    (hlen : s.data.length = 6) (hhex : s.data.all isHexDigit = true)
    (hbal : ¬ getBalance L uid < flatPrice) :
    (placeOrder L uid rank s).out =
      .ok { order_id := (L.orders.length : Int) + 1, user_id := uid,
            rank_name := rank, color := "#" ++ s, price := flatPrice,
            status := pendingStatus } ∧
    (placeOrder L uid rank ("#" ++ s)).out =
      .ok { order_id := (L.orders.length : Int) + 1, user_id := uid,
            rank_name := rank, color := "#" ++ s, price := flatPrice,
            status := pendingStatus } := by
  have h1 := hexMatch_of_hex s hlen hhex
  have h2 := hexMatch_hash_append s hlen hhex
  have hn1 := normalizeColor_of_hex s hlen hhex
  have hn2 := normalizeColor_hash_append s
  constructor <;> simp [placeOrder, h1, h2, hn1, hn2, hbal]

/-- Claim C8 witness: "ff66cc" and "#ff66cc" both produce an order whose stored
color is "#ff66cc". -/
theorem c8_witness :
    ("ff66cc" : String).data.length = 6 ∧
    ("ff66cc" : String).data.all isHexDigit = true ∧
    ¬ getBalance fundedLedger "u1" < flatPrice ∧
    ((placeOrder fundedLedger "u1" "Shadow" "ff66cc").out =
        .ok { order_id := (fundedLedger.orders.length : Int) + 1,
              user_id := "u1", rank_name := "Shadow",
              color := "#" ++ "ff66cc", price := flatPrice,
              status := pendingStatus } ∧
      (placeOrder fundedLedger "u1" "Shadow" ("#" ++ "ff66cc")).out =
        .ok { order_id := (fundedLedger.orders.length : Int) + 1,
              user_id := "u1", rank_name := "Shadow",
              color := "#" ++ "ff66cc", price := flatPrice,
              status := pendingStatus }) :=
  ⟨by decide, by decide, by decide,
    c8_color_normalization fundedLedger "u1" "Shadow" "ff66cc" (by decide)
      (by decide) (by decide)⟩

/-- Claim C10: a purchase attempt by a user with no account record and a balance
(0) strictly below the product's price fails with insufficient funds and
flushes nothing, yet the `setdefault` performed before the balance check
leaves a zero-balance record for that user in the in-memory users map. -/
theorem c10_account_record_leak (L : Ledger) (uid pname : String)
    (prod : Product)
    (habs : List.lookup uid L.users = none)
    (hfind : L.products.find? (fun p => p.name == pname) = some prod)
    (hprice : 0 < prod.price) :
    getBalance L uid = 0 ∧
    (purchase L uid pname).out = .error .insufficientFunds ∧
    (purchase L uid pname).flushed = false ∧
    (purchase L uid pname).led.users = L.users ++ [(uid, 0)] ∧
    List.lookup uid (purchase L uid pname).led.users = some 0 ∧
    getBalance (purchase L uid pname).led uid = 0 := by
  have hsd : setdefaultUser L.users uid = L.users ++ [(uid, 0)] := by
    simp [setdefaultUser, habs]
  have hlk : List.lookup uid (setdefaultUser L.users uid) = some 0 := by
    rw [hsd, lookup_append_of_none _ _ _ habs, lookup_cons_self]
  have hbal : ((List.lookup uid (setdefaultUser L.users uid)).getD 0) <
      prod.price := by
    rw [hlk]
    simpa using hprice
  refine ⟨by simp [getBalance, habs], ?_, ?_, ?_, ?_, ?_⟩
  · simp [purchase, hfind, hbal]
  · simp [purchase, hfind, hbal]
  · have : (purchase L uid pname).led.users = setdefaultUser L.users uid := by
      simp [purchase, hfind, hbal]
    rw [this, hsd]
  · have : (purchase L uid pname).led.users = setdefaultUser L.users uid := by
      simp [purchase, hfind, hbal]
    rw [this, hlk]
  · have : (purchase L uid pname).led.users = setdefaultUser L.users uid := by
      simp [purchase, hfind, hbal]
    unfold getBalance
    rw [this, hlk]
    rfl

/-- Claim C10 witness: an unknown user "u2" attempting to buy the 10-cost "VIP"
product is refused, nothing is flushed, yet the users map now records
"u2" with balance 0. -/
theorem c10_witness :
    List.lookup "u2" vipCatalog.users = none ∧
    vipCatalog.products.find? (fun p => p.name == "VIP") = some vipProduct ∧
    0 < vipProduct.price ∧
    (getBalance vipCatalog "u2" = 0 ∧
      (purchase vipCatalog "u2" "VIP").out = .error .insufficientFunds ∧
      (purchase vipCatalog "u2" "VIP").flushed = false ∧
      (purchase vipCatalog "u2" "VIP").led.users =
        vipCatalog.users ++ [("u2", 0)] ∧
      List.lookup "u2" (purchase vipCatalog "u2" "VIP").led.users = some 0 ∧
      getBalance (purchase vipCatalog "u2" "VIP").led "u2" = 0) :=
  ⟨rfl, rfl, by decide,
    c10_account_record_leak vipCatalog "u2" "VIP" vipProduct rfl rfl
      (by decide)⟩

end RankShop
